import Mathlib

/-!
Shallow embedding of the typed foreign-memory layer of the `gd.py`
repository (modules `gd/memory/utils.py`, `gd/memory/fields.py`,
`gd/memory/string.py`), together with theorems settling the frozen claims
about it.

Python integers are modelled as `Nat`; byte buffers as `List Nat`;
fallible code returns `Option` or `Except`.  Exceptions raised by a
function are the `.error` / `none` results of its embedding.
-/

namespace GdMemory

/-! ### Platform model

Modelled from the spec: `gd/platform.py` is not under `src/`.  Spec §3:
`PlatformConfig = { bits: 8|16|32|64, os: OsFamily, byte_order }`, immutable;
spec §4.3 uses `config.bits` (an integer) and `config.platform.is_windows()`
(the Windows family test).  Byte order never enters any size computation, so
it is kept as a separate enumeration used only by read/write signatures. -/

inductive OsFamily where
  | windows
  | linux
  | macos
  | android
  | ios
  deriving DecidableEq, Repr

/-- Modelled from the spec: the Windows-family test `config.platform.is_windows()`. -/
def OsFamily.is_windows : OsFamily → Bool
  | .windows => true
  | _ => false

inductive Bits where
  | b8
  | b16
  | b32
  | b64
  deriving DecidableEq, Repr

/-- Numeric value of the bit width, as the Python code compares `config.bits`
with integer literals. -/
def Bits.toNat : Bits → Nat
  | .b8 => 8
  | .b16 => 16
  | .b32 => 32
  | .b64 => 64

structure PlatformConfig where
  bits : Bits
  platform : OsFamily
  deriving DecidableEq, Repr

inductive ByteOrder where
  | native
  | little
  | big
  deriving DecidableEq, Repr

/-! ### Size constants

Modelled from the spec: `gd/binary_constants.py` is not under `src/`.
Spec §4.3 fixes the widths: `I32` is 4 bytes always, `Float/Double` map to
4/8 bytes, and the width-specific kinds follow their names (sizes in bytes). -/

def I8_SIZE : Nat := 1
def U8_SIZE : Nat := 1
def I16_SIZE : Nat := 2
def U16_SIZE : Nat := 2
def I32_SIZE : Nat := 4
def U32_SIZE : Nat := 4
def I64_SIZE : Nat := 8
def U64_SIZE : Nat := 8
def F32_SIZE : Nat := 4
def F64_SIZE : Nat := 8

/-! ### Utility layer (`gd/memory/utils.py`)

The source computes `closest_power_of_two_bits(value) = ceil(log2(value))`
and `closest_power_of_two(value) = 1 << closest_power_of_two_bits(value)`,
where `math.log2` is a double-precision float.  `log2(0)` raises a
`ValueError` (math domain error), embedded as `none`; on that input the
embedding is exact.  For positive inputs the definitions below use the
exact ceiling base-2 logarithm `Nat.clog 2`, which is the documented intent
("smallest power of two >= n") but NOT the float computation: in CPython
`log2(2 ^ 53 + 1) == 53.0`, so the source returns `2 ^ 53` (not `2 ^ 54`)
at `value = 2 ^ 53 + 1` — see claim C8.  Double-precision rounding does not
translate to this integer embedding, so for positive inputs these
definitions stand for the exact-arithmetic intent, and every theorem about
code that *calls* the helper is parameterized over the helper instead. -/

def closest_power_of_two_bits (value : Nat) : Option Nat :=
  if value = 0 then none else some (Nat.clog 2 value)

def closest_power_of_two (value : Nat) : Option Nat :=
  (closest_power_of_two_bits value).map fun b => 1 <<< b

/-- Total exact-intent variant of `closest_power_of_two` for positive
arguments; agrees with `closest_power_of_two` on every positive input
(`closest_power_of_two_pos`).  Like it, this is the mathematical intent,
not the source's float computation. -/
def pow2ceil (value : Nat) : Nat := 2 ^ Nat.clog 2 value

theorem closest_power_of_two_pos {n : Nat} (h : 1 ≤ n) :
    closest_power_of_two n = some (pow2ceil n) := by
  unfold closest_power_of_two closest_power_of_two_bits pow2ceil
  rw [if_neg (by omega)]
  simp [Nat.shiftLeft_eq]

/-- `s` is the least power of two that is at least `n`. -/
def IsLeastPow2Geq (s n : Nat) : Prop :=
  (∃ k, s = 2 ^ k) ∧ n ≤ s ∧ ∀ t, (∃ k, t = 2 ^ k) → n ≤ t → s ≤ t

theorem pow2ceil_least (n : Nat) : IsLeastPow2Geq (pow2ceil n) n := by
  refine ⟨⟨Nat.clog 2 n, rfl⟩, Nat.le_pow_clog one_lt_two n, ?_⟩
  rintro t ⟨k, rfl⟩ ht
  exact Nat.pow_le_pow_right (by norm_num) ((Nat.le_pow_iff_clog_le one_lt_two).mp ht)

theorem pow2ceil_ge {n : Nat} : n ≤ pow2ceil n :=
  Nat.le_pow_clog one_lt_two n

theorem pow2ceil_pow (k : Nat) : pow2ceil (2 ^ k) = 2 ^ k := by
  unfold pow2ceil
  rw [Nat.clog_pow 2 k one_lt_two]

theorem pow2ceil_pow_succ (k : Nat) : pow2ceil (2 ^ k + 1) = 2 ^ (k + 1) := by
  unfold pow2ceil
  congr 1
  have hle : Nat.clog 2 (2 ^ k + 1) ≤ k + 1 := by
    rw [← Nat.le_pow_iff_clog_le one_lt_two]
    have : 2 ^ k + 2 ^ k = 2 ^ (k + 1) := by ring
    have hk : 1 ≤ 2 ^ k := Nat.one_le_two_pow
    omega
  have hgt : k < Nat.clog 2 (2 ^ k + 1) := by
    rw [← Nat.pow_lt_iff_lt_clog one_lt_two]
    omega
  omega

/-! ### Scalar field variants (`gd/memory/fields.py`, lines 128-580)

Each Python class `I8 .. Double` is one constructor; `compute_size` and
`compute_alignment` transcribe the corresponding method bodies. -/

inductive ScalarField where
  | i8
  | u8
  | i16
  | u16
  | i32
  | u32
  | i64
  | u64
  | isize
  | usize
  | f32
  | f64
  | byte
  | ubyte
  | short
  | ushort
  | int
  | uint
  | long
  | ulong
  | longlong
  | ulonglong
  | size
  | float
  | double
  deriving DecidableEq, Repr

def ScalarField.compute_size : ScalarField → PlatformConfig → Nat
  | .i8, _ => I8_SIZE
  | .u8, _ => U8_SIZE
  | .i16, _ => I16_SIZE
  | .u16, _ => U16_SIZE
  | .i32, _ => I32_SIZE
  | .u32, _ => U32_SIZE
  | .i64, _ => I64_SIZE
  | .u64, _ => U64_SIZE
  | .isize, config =>
    match config.bits with
    | .b8 => I8_SIZE
    | .b16 => I16_SIZE
    | .b32 => I32_SIZE
    | .b64 => I64_SIZE
  | .usize, config =>
    match config.bits with
    | .b8 => U8_SIZE
    | .b16 => U16_SIZE
    | .b32 => U32_SIZE
    | .b64 => U64_SIZE
  | .f32, _ => F32_SIZE
  | .f64, _ => F64_SIZE
  | .byte, _ => I8_SIZE
  | .ubyte, _ => U8_SIZE
  | .short, _ => I16_SIZE
  | .ushort, _ => U16_SIZE
  | .int, config => if config.bits.toNat < 32 then I16_SIZE else I32_SIZE
  | .uint, config => if config.bits.toNat < 32 then U16_SIZE else U32_SIZE
  | .long, config =>
    if 32 < config.bits.toNat ∧ ¬config.platform.is_windows then I64_SIZE else I32_SIZE
  | .ulong, config =>
    if 32 < config.bits.toNat ∧ ¬config.platform.is_windows then U64_SIZE else U32_SIZE
  | .longlong, _ => I64_SIZE
  | .ulonglong, _ => U64_SIZE
  | .size, config =>
    match config.bits with
    | .b8 => I8_SIZE
    | .b16 => I16_SIZE
    | .b32 => I32_SIZE
    | .b64 => I64_SIZE
  | .float, _ => F32_SIZE
  | .double, _ => F64_SIZE

def ScalarField.compute_alignment : ScalarField → PlatformConfig → Nat
  | .i8, _ => I8_SIZE
  | .u8, _ => U8_SIZE
  | .i16, _ => I16_SIZE
  | .u16, _ => U16_SIZE
  | .i32, _ => I32_SIZE
  | .u32, _ => U32_SIZE
  | .i64, _ => I64_SIZE
  | .u64, _ => U64_SIZE
  | .isize, config =>
    match config.bits with
    | .b8 => I8_SIZE
    | .b16 => I16_SIZE
    | .b32 => I32_SIZE
    | .b64 => I64_SIZE
  | .usize, config =>
    match config.bits with
    | .b8 => U8_SIZE
    | .b16 => U16_SIZE
    | .b32 => U32_SIZE
    | .b64 => U64_SIZE
  | .f32, _ => F32_SIZE
  | .f64, _ => F64_SIZE
  | .byte, _ => I8_SIZE
  | .ubyte, _ => U8_SIZE
  | .short, _ => I16_SIZE
  | .ushort, _ => U16_SIZE
  | .int, config => if config.bits.toNat < 32 then I16_SIZE else I32_SIZE
  | .uint, config => if config.bits.toNat < 32 then U16_SIZE else U32_SIZE
  | .long, config =>
    if 32 < config.bits.toNat ∧ ¬config.platform.is_windows then I64_SIZE else I32_SIZE
  | .ulong, config =>
    if 32 < config.bits.toNat ∧ ¬config.platform.is_windows then U64_SIZE else U32_SIZE
  | .longlong, _ => I64_SIZE
  | .ulonglong, _ => U64_SIZE
  | .size, config =>
    match config.bits with
    | .b8 => I8_SIZE
    | .b16 => I16_SIZE
    | .b32 => I32_SIZE
    | .b64 => I64_SIZE
  | .float, _ => F32_SIZE
  | .double, _ => F64_SIZE

/-! ### Array fields (`gd/memory/fields.py`, lines 591-626)

An `ArrayField` wraps an element field and an optional length.  Element
fields may themselves be arrays, so fields form an inductive type.
`compute_size` raises `TypeError(UNSIZED_ARRAY)` when the length is `None`,
embedded as `Except.error`; note that the computation is a pure function of
the field and the config — it takes no state, so no memory access occurs. -/

inductive LayoutErr where
  | unsizedType
  deriving DecidableEq, Repr

inductive FieldType where
  | scalar (s : ScalarField)
  | array (element : FieldType) (length : Option Nat)
  deriving DecidableEq, Repr

def FieldType.compute_size : FieldType → PlatformConfig → Except LayoutErr Nat
  | .scalar s, config => .ok (s.compute_size config)
  | .array element length, config =>
    match length with
    | none => .error .unsizedType
    | some n => do
      let elementSize ← element.compute_size config
      pure (elementSize * n)

/-! ### Memory state and `ArrayField.write`

The `AbstractState` port (spec §4.2; `gd/memory/state.py` is not under
`src/`) is modelled as byte-addressed memory plus a log of every access made
through the port, so that "performs no memory access" is observable.  Scalar
writes go through `write_bytes`; `ArrayField.write` (fields.py lines
605-612) is `pass` in the source and returns the state unchanged. -/

inductive MemAccess where
  | readAccess (address : Nat) (size : Nat)
  | writeAccess (address : Nat) (data : List Nat)
  | allocAccess (size : Nat)
  deriving DecidableEq, Repr

structure MemState where
  memory : Nat → Nat
  accessLog : List MemAccess

def MemState.write_bytes (st : MemState) (address : Nat) (data : List Nat) : MemState :=
  { memory := fun a =>
      if address ≤ a ∧ a < address + data.length then data.getD (a - address) 0
      else st.memory a
    accessLog := st.accessLog ++ [.writeAccess address data] }

def MemState.read_bytes (st : MemState) (address : Nat) (size : Nat) :
    (List Nat) × MemState :=
  ((List.range size).map fun i => st.memory (address + i),
   { st with accessLog := st.accessLog ++ [.readAccess address size] })

/-- Transcription of `ArrayField.write` (`pass  # do nothing`); the array
value argument is opaque since it is never inspected. -/
def ArrayField.write {α : Type} (state : MemState) (_address : Nat) (_value : α)
    (_order : ByteOrder) : MemState :=
  state

/-! ### String marshalling (`gd/memory/string.py`)

The `std_string` struct is a view with fields `content` (a 16-byte union of
an inline `char[16]` and a heap pointer), `length` and `capacity`.  The view
state records the values of those slots plus the bytes reachable through
them; `allocate` calls and raw heap writes are logged so that the claims
about allocation behaviour are observable.  The address returned by
`allocate` is a parameter (`allocAddr`), since the collaborator chooses it.
Strings are represented by their encoded bytes (`data : List Nat`), as the
claims speak of the encoded byte length; `CONTENT_SIZE = 0x10` and
`NULL_BYTE = bytes(1)` come from string.py lines 11-12.

The module calls `closest_power_of_two`, whose double-precision `log2` does
not translate to the integer embedding (see the utility section above), so
the setters take that helper as a parameter `clp2 : Nat → Nat`: theorems
proved for every `clp2` hold in particular of the float-based source helper,
and conclusions about the allocation size are stated as `clp2 (...)`. -/

def CONTENT_SIZE : Nat := 0x10

def NULL_BYTE : List Nat := [0]

/-- Writing `data` at offset 0 of a fixed buffer `buf`: the written bytes
replace the prefix, the rest of the buffer keeps its old contents. -/
def overwrite (buf data : List Nat) : List Nat :=
  data ++ buf.drop data.length

structure StdStr where
  inlineBytes : List Nat
  pointer : Nat
  length : Nat
  capacity : Nat
  heapWrites : List (Nat × List Nat)
  allocs : List Nat
  deriving DecidableEq, Repr

/-- Transcription of `std_string.set_value` (string.py lines 51-88).  `value`
enters already encoded (`data`); `allocAddr` is the address the state's
`allocate` returns on this call (unused when no allocation happens); `clp2`
is the module's `closest_power_of_two` helper, kept abstract because its
double-precision `log2` does not translate. -/
def std_string.set_value (clp2 : Nat → Nat) (st : StdStr) (data : List Nat)
    (allocAddr : Nat) : StdStr :=
  let capacity := st.capacity
  let length := data.length
  let full := data ++ NULL_BYTE
  let size := full.length
  let st := { st with length := length }
  if capacity < length then
    if length < CONTENT_SIZE then
      let st := { st with capacity := CONTENT_SIZE - 1 }
      { st with inlineBytes := overwrite st.inlineBytes full }
    else
      let size := clp2 size
      let st := { st with allocs := st.allocs ++ [size] }
      let st := { st with pointer := allocAddr }
      let st := { st with capacity := size - 1 }
      { st with heapWrites := st.heapWrites ++ [(st.pointer, full)] }
  else
    if capacity < CONTENT_SIZE then
      { st with inlineBytes := overwrite st.inlineBytes full }
    else
      { st with heapWrites := st.heapWrites ++ [(st.pointer, full)] }

/-- Read-side view of a `std_string`: the slot values plus the byte regions
reachable from the inline buffer and from the heap pointer. -/
structure StdStrView where
  capacity : Nat
  length : Nat
  inlineRegion : List Nat
  heapRegion : List Nat
  deriving DecidableEq, Repr

inductive PyErr where
  | nameError
  deriving DecidableEq, Repr

/-- Transcription of `std_string.get_value` (string.py lines 29-49).  `dec`
embeds `bytes.decode()`: `none` when the bytes are not valid UTF-8 (in the
source this raises `UnicodeDecodeError`, caught by the surrounding `try`).
The `Except` result type carries any exception the method itself lets
escape.  When both decode attempts fail, line 49 executes
`return EMPTY_STRING` — but `EMPTY_STRING` is neither defined in nor
imported into `gd/memory/string.py`, so that statement raises `NameError`,
embedded as `.error .nameError`. -/
def std_string.get_value (dec : List Nat → Option String) (st : StdStrView) :
    Except PyErr String :=
  let firstAttempt : Option String :=
    if st.capacity < CONTENT_SIZE then dec (st.inlineRegion.take st.length) else none
  match firstAttempt with
  | some s => .ok s
  | none =>
    match dec (st.heapRegion.take st.length) with
    | some s => .ok s
    | none => .error .nameError

/-! ### Reference-counted long string (`old_std_string`, string.py lines 110-164)

The single `pointer` field holds the address of the content region; the
`old_std_long_string` header (`capacity`, `length`, `ref_count`; declared
with `origin=3`) lies immediately before it, `headerSize` bytes wide
(`long_string.size`, computed by the layout engine in `gd/memory/base.py`,
which is not under `src/` — the spec fixes only that content starts
`header_size` past the allocation, so the width stays a parameter).  The
state tracks the header the pointer currently designates, plus logs of
`allocate` calls and raw content writes. -/

structure OldStdStr where
  pointer : Nat
  hdrCapacity : Nat
  hdrLength : Nat
  hdrRefCount : Int
  heapWrites : List (Nat × List Nat)
  allocs : List Nat
  deriving DecidableEq, Repr

/-- Transcription of `old_std_string.set_value` (string.py lines 134-164).
`headerSize` is `long_string.size`; `allocAddr` is the address `allocate`
returns when called; `clp2` is the module's `closest_power_of_two` helper,
kept abstract because its double-precision `log2` does not translate. -/
def old_std_string.set_value (clp2 : Nat → Nat) (headerSize : Nat) (st : OldStdStr)
    (data : List Nat) (allocAddr : Nat) : OldStdStr :=
  let ref_count := st.hdrRefCount
  let capacity := st.hdrCapacity
  let length := data.length
  let full := data ++ NULL_BYTE
  let size := full.length
  let st :=
    if capacity < length then
      let size := clp2 (size + headerSize)
      let st := { st with allocs := st.allocs ++ [size] }
      let st := { st with pointer := allocAddr + headerSize }
      let st := { st with hdrCapacity := size - headerSize - 1 }
      { st with hdrRefCount := ref_count }
    else
      st
  let st := { st with hdrLength := length }
  { st with heapWrites := st.heapWrites ++ [(st.pointer, full)] }

/-! ## Claim theorems -/

/-- Claim C4: for every `PlatformConfig` and every scalar field kind,
`compute_size config` equals `compute_alignment config`. -/
theorem c4_scalar_size_eq_alignment (k : ScalarField) (config : PlatformConfig) :
    k.compute_size config = k.compute_alignment config := by
  cases k <;> rfl

/-- Claim C2: `Long` and `ULong` have `compute_size` 8 exactly when
`config.bits > 32` and the OS is not the Windows family, and 4 otherwise;
in particular 8 on 64-bit Linux, 4 on 64-bit Windows, 4 on 32-bit Linux. -/
theorem c2_long_ulong_size (config : PlatformConfig) :
    (ScalarField.long.compute_size config =
      if 32 < config.bits.toNat ∧ config.platform.is_windows = false then 8 else 4) ∧
    (ScalarField.ulong.compute_size config =
      if 32 < config.bits.toNat ∧ config.platform.is_windows = false then 8 else 4) ∧
    ScalarField.long.compute_size ⟨.b64, .linux⟩ = 8 ∧
    ScalarField.long.compute_size ⟨.b64, .windows⟩ = 4 ∧
    ScalarField.long.compute_size ⟨.b32, .linux⟩ = 4 := by
  obtain ⟨b, p⟩ := config
  cases b <;> cases p <;> decide

/-- Claim C5: `ArrayField.compute_size` fails with the size-unknown
(`UNSIZED_ARRAY` `TypeError`) error when the length is `None` — a pure
layout-time computation that takes no state and so performs no memory
access — and returns the element size times `n` when the length is `some n`
(propagating any error from the element's own size computation). -/
theorem c5_array_compute_size (element : FieldType) (config : PlatformConfig) :
    FieldType.compute_size (.array element none) config = .error .unsizedType ∧
    ∀ n : Nat, FieldType.compute_size (.array element (some n)) config =
      (FieldType.compute_size element config).map fun s => s * n := by
  refine ⟨rfl, fun n => ?_⟩
  cases h : element.compute_size config <;>
    simp [FieldType.compute_size, h, Except.map]

/-- Claim C9: `ArrayField.write` is a no-op — for every state, address,
array value and byte order it performs no memory access (the access log is
untouched) and leaves the target state completely unchanged. -/
theorem c9_array_write_noop {α : Type} (state : MemState) (address : Nat) (value : α)
    (order : ByteOrder) :
    ArrayField.write state address value order = state ∧
    (ArrayField.write state address value order).accessLog = state.accessLog :=
  ⟨rfl, rfl⟩

/-- Claim C8 (code bug): at the failing input `2 ^ 53 + 1` the claim
requires the result `2 ^ 54` — the least power of two at least the input,
which the exact ceiling-log model delivers — whereas the source's
double-precision computation (`log2(2 ^ 53 + 1) == 53.0` in CPython) makes
`closest_power_of_two` return `2 ^ 53`, smaller than its argument.  The
claimed idempotence step `2 ^ k + 1 → 2 ^ (k + 1)` therefore fails in the
program at `k = 53`. -/
theorem c8_exact_vs_float :
    closest_power_of_two (2 ^ 53 + 1) = some (2 ^ 54) ∧
    IsLeastPow2Geq (2 ^ 54) (2 ^ 53 + 1) := by
  constructor
  · rw [closest_power_of_two_pos (Nat.le_add_left 1 _), pow2ceil_pow_succ]
  · have h := pow2ceil_least (2 ^ 53 + 1)
    rwa [pow2ceil_pow_succ] at h

/-- Claim C10: `closest_power_of_two 0` raises (a `ValueError` from
`log2(0)`, embedded as `none`) rather than returning a value. -/
theorem c10_closest_power_of_two_zero : closest_power_of_two 0 = none := rfl

/-- Claim C7 (code bug): evaluation of `set_value` on the family containing
the failing input — a value of encoded length `L ≥ 16` written over
capacity 15 (the heap-allocation path).  The stored `length` is `L` and the
stored `capacity` is `closest_power_of_two(L + 1) - 1`, whatever the helper
returns.  At `L = 2 ^ 53`, CPython's float-based helper returns `2 ^ 53`
(see C8), so the program stores capacity `2 ^ 53 - 1`, strictly below the
stored length, refuting the claimed `capacity ≥ length` invariant (which
the exact-arithmetic intent would guarantee). -/
theorem c7_capacity_at_failing_input (clp2 : Nat → Nat) (L : Nat) (hL : 16 ≤ L) :
    (std_string.set_value clp2 ⟨List.replicate 16 0, 0, 0, 15, [], []⟩
      (List.replicate L 0) 500).length = L ∧
    (std_string.set_value clp2 ⟨List.replicate 16 0, 0, 0, 15, [], []⟩
      (List.replicate L 0) 500).capacity = clp2 (L + 1) - 1 := by
  have hdata : (List.replicate L (0 : Nat)).length = L := List.length_replicate L 0
  have hfull : (List.replicate L (0 : Nat) ++ NULL_BYTE).length = L + 1 := by
    simp [NULL_BYTE]
  unfold std_string.set_value
  dsimp only
  rw [hdata, hfull]
  rw [if_pos (by omega), if_neg (by simp only [CONTENT_SIZE]; omega)]
  exact ⟨rfl, rfl⟩

/-- Witness for C7 at the failing input itself, `L = 2 ^ 53`: the stored
capacity is the helper's value at `2 ^ 53 + 1` minus one (instantiated with
the exact-intent `pow2ceil`; the program's float helper returns `2 ^ 53`
there, putting the stored capacity below the stored length). -/
theorem c7_witness :
    16 ≤ 2 ^ 53 ∧
    ((std_string.set_value pow2ceil ⟨List.replicate 16 0, 0, 0, 15, [], []⟩
      (List.replicate (2 ^ 53) 0) 500).length = 2 ^ 53 ∧
    (std_string.set_value pow2ceil ⟨List.replicate 16 0, 0, 0, 15, [], []⟩
      (List.replicate (2 ^ 53) 0) 500).capacity = pow2ceil (2 ^ 53 + 1) - 1) :=
  ⟨by norm_num, c7_capacity_at_failing_input pow2ceil (2 ^ 53) (by norm_num)⟩

/-- Counterexample to claim C1 as stated: with a current `capacity` of 100
(a string already grown onto the heap), writing a 20-byte value (length
`≥ 16`) makes *no* `allocate` call (the claim demands exactly one), and
writing a 5-byte value (length `< 16`) is not stored in the inline buffer
and leaves `capacity` at 100, not 15.  The power-of-two helper is
instantiated with the exact-intent `pow2ceil`, but neither write reaches
the allocation path, so the helper's value is irrelevant here. -/
theorem c1_counterexample :
    16 ≤ (List.replicate 20 65).length ∧
    (std_string.set_value pow2ceil ⟨List.replicate 16 0, 0, 0, 100, [], []⟩
      (List.replicate 20 65) 0).allocs = [] ∧
    (List.replicate 5 66).length < 16 ∧
    (std_string.set_value pow2ceil ⟨List.replicate 16 0, 0, 0, 100, [], []⟩
      (List.replicate 5 66) 0).inlineBytes = List.replicate 16 0 ∧
    (std_string.set_value pow2ceil ⟨List.replicate 16 0, 0, 0, 100, [], []⟩
      (List.replicate 5 66) 0).capacity = 100 := by
  decide

/-- Claim C1, amended: the claimed behaviour holds only when the encoded
length exceeds the *current* capacity — then a length `< 16` is stored
inline with `capacity` set to 15 and no `allocate` call, and a length
`≥ 16` makes exactly one `allocate` call whose requested size is
`closest_power_of_two(L + 1)` as computed by the source's helper (the
smallest power of two `≥ L + 1` only insofar as that float-based helper is
exact; see C8 for its divergence).  When the length fits the current
capacity, `set_value` writes in place, with no allocation and `capacity`
unchanged.  Stated for an arbitrary helper `clp2`, hence for the real one. -/
theorem c1_set_value_amended (clp2 : Nat → Nat) (st : StdStr) (data : List Nat)
    (allocAddr : Nat) :
    (st.capacity < data.length → data.length < CONTENT_SIZE →
      (std_string.set_value clp2 st data allocAddr).capacity = CONTENT_SIZE - 1 ∧
      (std_string.set_value clp2 st data allocAddr).allocs = st.allocs ∧
      (std_string.set_value clp2 st data allocAddr).inlineBytes =
        overwrite st.inlineBytes (data ++ NULL_BYTE)) ∧
    (st.capacity < data.length → CONTENT_SIZE ≤ data.length →
      (std_string.set_value clp2 st data allocAddr).allocs =
        st.allocs ++ [clp2 (data.length + 1)] ∧
      (std_string.set_value clp2 st data allocAddr).pointer = allocAddr ∧
      (std_string.set_value clp2 st data allocAddr).capacity =
        clp2 (data.length + 1) - 1 ∧
      (std_string.set_value clp2 st data allocAddr).heapWrites =
        st.heapWrites ++ [(allocAddr, data ++ NULL_BYTE)]) ∧
    (data.length ≤ st.capacity →
      (std_string.set_value clp2 st data allocAddr).allocs = st.allocs ∧
      (std_string.set_value clp2 st data allocAddr).capacity = st.capacity) := by
  have hfull : (data ++ NULL_BYTE).length = data.length + 1 := by
    simp [NULL_BYTE]
  refine ⟨?_, ?_, ?_⟩
  · intro h1 h2
    unfold std_string.set_value
    dsimp only
    rw [if_pos h1, if_pos h2]
    exact ⟨rfl, rfl, rfl⟩
  · intro h1 h2
    unfold std_string.set_value
    dsimp only
    rw [if_pos h1, if_neg (not_lt.mpr h2), hfull]
    exact ⟨rfl, rfl, rfl, rfl⟩
  · intro h3
    unfold std_string.set_value
    dsimp only
    rw [if_neg (not_lt.mpr h3)]
    split_ifs <;> exact ⟨rfl, rfl⟩

/-- Witness for the amended C1: a 3-byte value written over capacity 0 goes
inline, sets `capacity` to 15 and allocates nothing (the helper, here the
exact-intent `pow2ceil`, is not reached on this path). -/
theorem c1_witness :
    (std_string.set_value pow2ceil ⟨List.replicate 16 0, 0, 0, 0, [], []⟩
      [65, 66, 67] 0).capacity = CONTENT_SIZE - 1 ∧
    (std_string.set_value pow2ceil ⟨List.replicate 16 0, 0, 0, 0, [], []⟩
      [65, 66, 67] 0).allocs = [] ∧
    (std_string.set_value pow2ceil ⟨List.replicate 16 0, 0, 0, 0, [], []⟩
      [65, 66, 67] 0).inlineBytes =
      overwrite (List.replicate 16 0) ([65, 66, 67] ++ NULL_BYTE) :=
  (c1_set_value_amended pow2ceil ⟨List.replicate 16 0, 0, 0, 0, [], []⟩ [65, 66, 67] 0).1
    (by decide) (by decide)

/-- Claim C3 (code bug in the sizing): when the encoded length exceeds the
current header capacity, `old_std_string.set_value` makes exactly one
`allocate` call of size `closest_power_of_two(length + 1 + header size)`,
redirects the pointer to the new block plus the header size, sets the new
header's capacity to the allocated size minus the header size minus one,
carries the old `ref_count` over, sets `length` to the encoded length, and
writes the bytes plus a null terminator into the content region.  Stated
for an arbitrary helper `clp2`, hence for the real one; the claimed
*smallest power of two* sizing holds only insofar as the float-based helper
is exact, and fails in the program when the argument is `2 ^ k + 1` with
`k ≥ 53` (see C8). -/
theorem c3_old_string_grow (clp2 : Nat → Nat) (headerSize : Nat) (st : OldStdStr)
    (data : List Nat) (allocAddr : Nat) (h : st.hdrCapacity < data.length) :
    (old_std_string.set_value clp2 headerSize st data allocAddr).allocs =
      st.allocs ++ [clp2 (data.length + 1 + headerSize)] ∧
    (old_std_string.set_value clp2 headerSize st data allocAddr).pointer =
      allocAddr + headerSize ∧
    (old_std_string.set_value clp2 headerSize st data allocAddr).hdrCapacity =
      clp2 (data.length + 1 + headerSize) - headerSize - 1 ∧
    (old_std_string.set_value clp2 headerSize st data allocAddr).hdrRefCount =
      st.hdrRefCount ∧
    (old_std_string.set_value clp2 headerSize st data allocAddr).hdrLength =
      data.length ∧
    (old_std_string.set_value clp2 headerSize st data allocAddr).heapWrites =
      st.heapWrites ++ [(allocAddr + headerSize, data ++ NULL_BYTE)] := by
  have hfull : (data ++ NULL_BYTE).length = data.length + 1 := by
    simp [NULL_BYTE]
  unfold old_std_string.set_value
  dsimp only
  rw [if_pos h, hfull]
  exact ⟨rfl, rfl, rfl, rfl, rfl, rfl⟩

/-- Witness for C3: growing past capacity 3 with a 4-byte value and a
12-byte header allocates `clp2 17` (here instantiated with the exact-intent
`pow2ceil`, giving 32) and rewires the header. -/
theorem c3_witness :
    (old_std_string.set_value pow2ceil 12 ⟨100, 3, 0, 1, [], []⟩
      [72, 73, 74, 75] 0).allocs = [] ++ [pow2ceil ([72, 73, 74, 75].length + 1 + 12)] ∧
    (old_std_string.set_value pow2ceil 12 ⟨100, 3, 0, 1, [], []⟩
      [72, 73, 74, 75] 0).pointer = 0 + 12 ∧
    (old_std_string.set_value pow2ceil 12 ⟨100, 3, 0, 1, [], []⟩
      [72, 73, 74, 75] 0).hdrCapacity = pow2ceil ([72, 73, 74, 75].length + 1 + 12) - 12 - 1 ∧
    (old_std_string.set_value pow2ceil 12 ⟨100, 3, 0, 1, [], []⟩
      [72, 73, 74, 75] 0).hdrRefCount = 1 ∧
    (old_std_string.set_value pow2ceil 12 ⟨100, 3, 0, 1, [], []⟩
      [72, 73, 74, 75] 0).hdrLength = [72, 73, 74, 75].length ∧
    (old_std_string.set_value pow2ceil 12 ⟨100, 3, 0, 1, [], []⟩
      [72, 73, 74, 75] 0).heapWrites = [] ++ [(0 + 12, [72, 73, 74, 75] ++ NULL_BYTE)] :=
  c3_old_string_grow pow2ceil 12 ⟨100, 3, 0, 1, [], []⟩ [72, 73, 74, 75] 0 (by decide)

/-- Claim C6 (code bug): the decode cascade works as claimed — with a
capacity below the inline size the inline bytes are decoded first (here a
decoder failing on the inline byte `0xFF` and succeeding on the heap byte
falls through to the heap-pointer path and returns its decoding) — but when
both decodes fail, string.py line 49 executes `return EMPTY_STRING`, a name
neither defined in nor imported into the module, so the method raises
`NameError` instead of returning the empty string: `get_value` is not
total. -/
theorem c6_get_value_name_error :
    std_string.get_value (fun l => if l = [104] then some "h" else none)
      ⟨0, 1, [255], [104]⟩ = .ok "h" ∧
    std_string.get_value (fun _ => none) ⟨0, 1, [255], [255]⟩ =
      .error .nameError := by
  constructor <;> rfl

end GdMemory
